import Mathlib

/-!
# Verification of the go-zoom phone client against its specification

Shallow embedding of `src/zoom/phone.go` (package `zoom`). Each endpoint
method of the Go client is translated into a pure Lean function. The
`Client.request` dispatcher is not part of `src/`; following the spec it is
modelled as an oracle parameter, so every theorem quantifies over all
possible dispatcher behaviours. Each method result records the list of
dispatcher invocations it performed, which makes "zero network calls" and
"exactly one call" provable statements.
-/

namespace Zoom

/-- One invocation of `client.request`: the HTTP verb, the (already
substituted) path, and whether a query value / body value was passed
(`nil` in Go becomes `false`). -/
structure EndpointCall where
  method : String
  path : String
  hasQuery : Bool
  hasBody : Bool
deriving DecidableEq

/-- Modelled from the spec: the Dispatcher (`client.request`, whose `Client`
type is not under `src/`) "performs exactly one outbound call and returns
(raw-response-handle, error)".  One invocation outcome: `decoded` is the
value the call writes through the output pointer (the ResponseDecoder's
work), `res` the opaque `*http.Response` handle (`none` = nil), `err` the
error (`none` = nil). -/
structure DispatchOutcome (α : Type) where
  decoded : α
  res : Option Nat
  err : Option String

/-- Modelled from the spec: a dispatcher is an arbitrary function from an
endpoint call to its outcome; the theorems below hold for every such
function. -/
def Dispatcher (α : Type) : Type := EndpointCall → DispatchOutcome α

/-- Result of an endpoint method that declares a typed output value:
Go's `(*Out, *http.Response, error)` triple, plus the trace of
`client.request` invocations the method performed. -/
structure MethodResult (α : Type) where
  out : Option α
  res : Option Nat
  err : Option String
  calls : List EndpointCall

/-- Result of an endpoint method with no typed output:
Go's `(*http.Response, error)` pair plus the call trace. -/
structure SimpleResult where
  res : Option Nat
  err : Option String
  calls : List EndpointCall

/-! ## PhoneAccountsService: batch add / delete of customized numbers -/

/-- `AddCustomizedNumbersRequest` (phone.go line 26). -/
structure AddCustomizedNumbersRequest where
  PhoneNumberIDs : List String

/-- `DeleteCustomizedNumbersRequest` (phone.go line 43). -/
structure DeleteCustomizedNumbersRequest where
  CustomizedIDs : List String

/-- The call issued by `AddCustomizedNumbers`: POST with body, no query. -/
def addCustomizedNumbersCall : EndpointCall :=
  { method := "POST", path := "/phone/outbound_caller_id/customized_numbers",
    hasQuery := false, hasBody := true }

/-- The call issued by `DeleteCustomizedNumbers`: DELETE with query, no body. -/
def deleteCustomizedNumbersCall : EndpointCall :=
  { method := "DELETE", path := "/phone/outbound_caller_id/customized_numbers",
    hasQuery := true, hasBody := false }

/-- `AddCustomizedNumbers` (phone.go lines 31-41): reject when more than 30
ids, otherwise dispatch once, wrapping a dispatch error with the fixed
prefix. -/
def AddCustomizedNumbers (dispatch : Dispatcher Unit)
    (req : AddCustomizedNumbersRequest) : SimpleResult :=
  if req.PhoneNumberIDs.length > 30 then
    { res := none,
      err := some "Error: cannot add more than 30 phone numbers ids at once",
      calls := [] }
  else
    let d := dispatch addCustomizedNumbersCall
    match d.err with
    | some e =>
      { res := d.res, err := some ("Error making request: " ++ e),
        calls := [addCustomizedNumbersCall] }
    | none => { res := d.res, err := none, calls := [addCustomizedNumbersCall] }

/-- `DeleteCustomizedNumbers` (phone.go lines 48-58). -/
def DeleteCustomizedNumbers (dispatch : Dispatcher Unit)
    (req : DeleteCustomizedNumbersRequest) : SimpleResult :=
  if req.CustomizedIDs.length > 30 then
    { res := none,
      err := some "Error: cannot delete more than 30 customized ids at once",
      calls := [] }
  else
    let d := dispatch deleteCustomizedNumbersCall
    match d.err with
    | some e =>
      { res := d.res, err := some ("Error making request: " ++ e),
        calls := [deleteCustomizedNumbersCall] }
    | none => { res := d.res, err := none, calls := [deleteCustomizedNumbersCall] }

/-! ## Account settings: filter validation and `GetAccountSettings` -/

/-- Go's `unicode.IsSpace` (used by `strings.TrimSpace`): the Unicode
White_Space code points — U+0009-U+000D, space, U+0085, U+00A0, U+1680,
U+2000-U+200A, U+2028, U+2029, U+202F, U+205F and U+3000. -/
def goIsSpace (c : Char) : Bool :=
  c = ' ' || c = '\t' || c = '\n' || c = '\x0b' || c = '\x0c' || c = '\r' ||
  c = '\x85' || c = '\xa0' || c = '\u1680' ||
  ('\u2000' ≤ c && c ≤ '\u200a') ||
  c = '\u2028' || c = '\u2029' || c = '\u202f' || c = '\u205f' || c = '\u3000'

/-- `strings.TrimSpace`: drop leading and trailing whitespace. -/
def trimSpace (s : String) : String :=
  ⟨((s.data.dropWhile goIsSpace).reverse.dropWhile goIsSpace).reverse⟩

/-- `strings.Split(s, ",")` on the character list: cut at every comma; the
empty string yields one empty piece. -/
def splitCommaChars : List Char → List (List Char)
  | [] => [[]]
  | c :: cs =>
    if c = ',' then [] :: splitCommaChars cs
    else
      match splitCommaChars cs with
      | [] => [[c]]
      | h :: t => (c :: h) :: t

/-- `strings.Split(s, ",")`. -/
def goSplitComma (s : String) : List String :=
  (splitCommaChars s.data).map (fun l => ⟨l⟩)

/-- `availableSettingTypes` (phone.go lines 98-141), the fixed enumerated
set of recognized setting names. -/
def availableSettingTypes : List String :=
  ["call_live_transcription",
   "local_survivability_mode",
   "external_calling_on_zoom_room_common_area",
   "select_outbound_caller_id",
   "personal_audio_library",
   "voicemail",
   "voicemail_transcription",
   "voicemail_notification_by_email",
   "shared_voicemail_notification_by_email",
   "restricted_call_hours",
   "allowed_call_locations",
   "check_voicemails_over_phone",
   "auto_call_recording",
   "ad_hoc_call_recording",
   "international_calling",
   "outbound_calling",
   "outbound_sms",
   "sms",
   "sms_etiquette_tool",
   "zoom_phone_on_mobile",
   "zoom_phone_on_pwa",
   "e2e_encryption",
   "call_handling_forwarding_to_other_users",
   "call_overflow",
   "call_transferring",
   "elevate_to_meeting",
   "call_park",
   "hand_off_to_room",
   "mobile_switch_to_carrier",
   "delegation",
   "audio_intercom",
   "block_calls_without_caller_id",
   "block_external_calls",
   "call_queue_opt_out_reason",
   "auto_delete_data_after_retention_duration",
   "auto_call_from_third_party_apps",
   "override_default_port",
   "peer_to_peer_media",
   "advanced_encryption",
   "display_call_feedback_survey",
   "block_list_for_inbound_calls_and_messaging",
   "block_calls_as_threat"]

/-- `AccountSettingsQuery` (phone.go line 143). -/
structure AccountSettingsQuery where
  SettingTypes : String

/-- `AccountSettingStates` (phone.go line 147). -/
structure AccountSettingStates where
  Enable : Bool
  Locked : Bool
  LockedBy : String
deriving Inhabited

/-- The anonymous `struct { *AccountSettingStates }` shape used by most
fields of `AccountSettingsResponse` (a nil embedded pointer is `none`). -/
structure StatesOnlySetting where
  states : Option AccountSettingStates
deriving Inhabited

/-- `AllowedCallLocations` field shape (phone.go line 160). -/
structure AllowedCallLocationsSetting where
  AllowInternalCalls : Bool
  states : Option AccountSettingStates
deriving Inhabited

/-- In/outbound audio-notification shape inside `AutoCallRecording`
(phone.go lines 174, 179). -/
structure AudioNotificationSetting where
  RecordingExplicitConsent : Bool
  RecordingStartPrompt : Bool
  RecordingStartPromptAudioID : String
deriving Inhabited

/-- `PlayRecordingBeepTone` shape (phone.go line 184). -/
structure PlayRecordingBeepToneSetting where
  Enable : Bool
  PlayBeepMember : String
  PlayBeepTimeInterval : Int
deriving Inhabited

/-- `AutoCallRecording` field shape (phone.go line 170). -/
structure AutoCallRecordingSetting where
  states : Option AccountSettingStates
  AllowStopResumeRecording : Bool
  DisconnectOnRecordingFailure : Bool
  InboundAudioNotification : AudioNotificationSetting
  OutboundAudioNotification : AudioNotificationSetting
  PlayRecordingBeepTone : PlayRecordingBeepToneSetting
  RecordingCalls : String
  RecordingTranscription : Bool
deriving Inhabited

/-- `CallHandlingForwardingToOtherUsers` field shape (phone.go line 207). -/
structure CallForwardingSetting where
  states : Option AccountSettingStates
  CallForwardingType : Int
deriving Inhabited

/-- `TranscriptionStartPrompt` shape (phone.go line 213). -/
structure TranscriptionStartPromptSetting where
  AudioID : String
  AudioName : String
deriving Inhabited

/-- `CallLiveTranscription` field shape (phone.go line 211). -/
structure CallLiveTranscriptionSetting where
  states : Option AccountSettingStates
  TranscriptionStartPrompt : TranscriptionStartPromptSetting
deriving Inhabited

/-- `CallOverflow` field shape (phone.go line 218). -/
structure CallOverflowSetting where
  states : Option AccountSettingStates
  CallOverflowType : Int
deriving Inhabited

/-- `CallTransferring` field shape (phone.go line 228). -/
structure CallTransferringSetting where
  states : Option AccountSettingStates
  CallTransferringType : Int
deriving Inhabited

/-- `PersonalAudioLibrary` field shape (phone.go line 274). -/
structure PersonalAudioLibrarySetting where
  states : Option AccountSettingStates
  AllowMusicOnHoldCustomization : Bool
  AllowVoicemailAndMessageGreetingCustomization : Bool
deriving Inhabited

/-- `AccountSettingsResponse` (phone.go lines 153-282), field for field in
source order; each anonymous struct shape is one of the named structures
above. -/
structure AccountSettingsResponse where
  AdHocCallRecording : StatesOnlySetting
  AdavancedEncryption : StatesOnlySetting
  AllowedCallLocations : AllowedCallLocationsSetting
  AudioIntercom : StatesOnlySetting
  AutoCallFromThirdPartyApps : StatesOnlySetting
  AutoCallRecording : AutoCallRecordingSetting
  AutoDeleteDataAfterRetentionDuration : StatesOnlySetting
  BlockCallsAsThreat : StatesOnlySetting
  BlockCallsWithoutCallerID : StatesOnlySetting
  BlockExternalCalls : StatesOnlySetting
  BlockListForInboundCallsAndMessaging : StatesOnlySetting
  CallHandlingForwardingToOtherUsers : CallForwardingSetting
  CallLiveTranscription : CallLiveTranscriptionSetting
  CallOverflow : CallOverflowSetting
  CallPark : StatesOnlySetting
  CallQueueOptOutReason : StatesOnlySetting
  CallTransferring : CallTransferringSetting
  CheckVoicemailsOverPhone : StatesOnlySetting
  Delegation : StatesOnlySetting
  DisplayCallFeedbackSurvey : StatesOnlySetting
  E2EEncryption : StatesOnlySetting
  ElevateToMeeting : StatesOnlySetting
  ExternalCallingOnZoomRoomCommonArea : StatesOnlySetting
  HandOffToRoom : StatesOnlySetting
  InternationalCalling : StatesOnlySetting
  LocalSurvivabilityMode : StatesOnlySetting
  MobileSwitchToCarrier : StatesOnlySetting
  OutboundCalling : StatesOnlySetting
  OutboundSMS : StatesOnlySetting
  OverrideDefaultPort : StatesOnlySetting
  PeerToPeerMedia : StatesOnlySetting
  PersonalAudioLibrary : PersonalAudioLibrarySetting
  RestrictedCallHours : StatesOnlySetting
deriving Inhabited

/-- The validation loop of `GetAccountSettings` (phone.go lines 286-291):
split the filter on commas, trim each piece, and return the first trimmed
piece not contained in `availableSettingTypes` (the loop exits at the first
such piece); `none` means every piece passed. -/
def firstInvalidSetting (settingTypes : String) : Option String :=
  ((goSplitComma settingTypes).map trimSpace).find?
    (fun s => !(availableSettingTypes.contains s))

/-- The call issued by `GetAccountSettings`: GET with query, no body. -/
def accountSettingsCall : EndpointCall :=
  { method := "GET", path := "/phone/account_settings",
    hasQuery := true, hasBody := false }

/-- `GetAccountSettings` (phone.go lines 285-300): validate the filter
(returning on the first invalid entry, before any dispatch), then dispatch
once. -/
def GetAccountSettings (dispatch : Dispatcher AccountSettingsResponse)
    (query : AccountSettingsQuery) : MethodResult AccountSettingsResponse :=
  match firstInvalidSetting query.SettingTypes with
  | some setting =>
    { out := none, res := none,
      err := some ("Error: invalid setting type \x27" ++ setting ++ "\x27"),
      calls := [] }
  | none =>
    let d := dispatch accountSettingsCall
    match d.err with
    | some e =>
      { out := none, res := d.res,
        err := some ("Error making request: " ++ e),
        calls := [accountSettingsCall] }
    | none =>
      { out := some d.decoded, res := d.res, err := none,
        calls := [accountSettingsCall] }

/-! ## List endpoint: `GetCustomizedNumbers`, and the pagination model -/

/-- Modelled from the spec: `PaginationOptions` (embedded by
`GetCustomizedNumbersRequest`, phone.go line 61, but declared outside
`src/`) — "outbound page-size / next-page-token / page-number fields,
always optional (zero value means server default)". -/
structure PaginationOptions where
  PageSize : Nat
  NextPageToken : String
  PageNumber : Nat
deriving Inhabited

/-- Modelled from the spec: `PaginationResponse` (embedded by
`GetCustomizedNumbersResponse`, phone.go line 82, declared outside `src/`)
— "inbound next-page-token / total-record-count / page-count fields". -/
structure PaginationResponse where
  NextPageToken : String
  TotalRecords : Nat
  PageCount : Nat
deriving Inhabited

/-- The anonymous `Site` struct inside `CustomizeNumber` (phone.go line 75). -/
structure CustomizeNumberSite where
  ID : String
  Name : String
deriving Inhabited

/-- `CustomizeNumber` (phone.go lines 64-79). -/
structure CustomizeNumber where
  CustomizeID : String
  DisplayName : String
  ExtensionID : String
  ExtensionName : String
  ExtensionNumber : String
  ExtensionType : String
  Incoming : Bool
  Outgoing : Bool
  PhoneNumber : String
  PhoneNumberID : String
  Site : CustomizeNumberSite
deriving Inhabited

/-- `GetCustomizedNumbersRequest` (phone.go line 60): an embedded
`*PaginationOptions` (nil is `none`). -/
structure GetCustomizedNumbersRequest where
  pagination : Option PaginationOptions
deriving Inhabited

/-- `GetCustomizedNumbersResponse` (phone.go lines 81-84). -/
structure GetCustomizedNumbersResponse where
  pagination : Option PaginationResponse
  CustomizeNumbers : List CustomizeNumber
deriving Inhabited

/-- The call issued by `GetCustomizedNumbers`: GET with query, no body. -/
def getCustomizedNumbersCall : EndpointCall :=
  { method := "GET", path := "/phone/outbound_caller_id/customized_numbers",
    hasQuery := true, hasBody := false }

/-- `GetCustomizedNumbers` (phone.go lines 87-96): no validation; dispatch
once; on error return a nil output with the wrapped error, on success the
decoded output. -/
def GetCustomizedNumbers (dispatch : Dispatcher GetCustomizedNumbersResponse)
    (_req : GetCustomizedNumbersRequest) : MethodResult GetCustomizedNumbersResponse :=
  let d := dispatch getCustomizedNumbersCall
  match d.err with
  | some e =>
    { out := none, res := d.res, err := some ("Error making request: " ++ e),
      calls := [getCustomizedNumbersCall] }
  | none =>
    { out := some d.decoded, res := d.res, err := none,
      calls := [getCustomizedNumbersCall] }

/-! ## PhoneAlertsService: `CreateAlert` -/

/-- Rule-condition entry of `CreateAlertRequest` (phone.go line 310). -/
structure CreateAlertRuleCondition where
  RuleConditionType : Int
  RuleConditionValue : String
deriving Inhabited

/-- Chat-channel entry of `CreateAlertRequest` (phone.go line 318). -/
structure CreateAlertChatChannel where
  ChatChannelName : String
  EndPoint : String
  Token : String
deriving Inhabited

/-- `CreateAlertRequest` (phone.go lines 306-327). -/
structure CreateAlertRequest where
  AlertSettingsName : String
  Module : Int
  Rule : Int
  RuleConditions : List CreateAlertRuleCondition
  TargetType : Int
  TimeFrameFrom : String
  TimeFrameTo : String
  TimeFrameType : String
  ChatChannels : List CreateAlertChatChannel
  EmailRecipients : List String
  Frequency : Int
  TargetIDs : List String
  Status : Int
deriving Inhabited

/-- `CreateAlertResponse` (phone.go lines 329-332). -/
structure CreateAlertResponse where
  AlertSettingID : String
  AlertSettingName : String
deriving Inhabited

/-- The call issued by `CreateAlert`: POST with body, no query. -/
def createAlertCall : EndpointCall :=
  { method := "POST", path := "/phone/alert_settings",
    hasQuery := false, hasBody := true }

/-- `CreateAlert` (phone.go lines 335-344): no validation; dispatch once. -/
def CreateAlert (dispatch : Dispatcher CreateAlertResponse)
    (_req : CreateAlertRequest) : MethodResult CreateAlertResponse :=
  let d := dispatch createAlertCall
  match d.err with
  | some e =>
    { out := none, res := d.res, err := some ("Error making request: " ++ e),
      calls := [createAlertCall] }
  | none =>
    { out := some d.decoded, res := d.res, err := none,
      calls := [createAlertCall] }

/-! ## PaginationCursor iteration -/

/-- Modelled from the spec: the PaginationCursor walk (§4.5; the cursor
machinery is declared outside `src/`): "each next step issues one
EndpointCall reusing the previous response's next-page-token as the new
request's page-token, terminating when the returned next-page-token is
empty".  The server is a function from a page-token to the page payload and
the next-page-token it returns; `fuel` bounds the number of steps so the
function is total. -/
def cursorIterate {α : Type} (srv : String → α × String) :
    Nat → String → List α
  | 0, _ => []
  | fuel + 1, tok =>
    let pr := srv tok
    pr.1 :: (if pr.2 = "" then [] else cursorIterate srv fuel pr.2)

/-! ## JSON field keys of `AccountSettingsResponse` -/

/-- The `json:"..."` struct tag of each field of `AccountSettingsResponse`,
transcribed tag for tag from phone.go lines 153-282 (in particular, the
tags at lines 278 and 281). -/
def accountSettingsJSONKey : String → Option String
  | "AdHocCallRecording" => some "ad_hoc_call_recording"
  | "AdavancedEncryption" => some "advanced_encryption"
  | "AllowedCallLocations" => some "allowed_call_locations"
  | "AudioIntercom" => some "audio_intercom"
  | "AutoCallFromThirdPartyApps" => some "auto_call_from_third_party_apps"
  | "AutoCallRecording" => some "auto_call_recording"
  | "AutoDeleteDataAfterRetentionDuration" =>
      some "auto_delete_data_after_retention_duration"
  | "BlockCallsAsThreat" => some "block_calls_as_threat"
  | "BlockCallsWithoutCallerID" => some "block_calls_without_caller_id"
  | "BlockExternalCalls" => some "block_external_calls"
  | "BlockListForInboundCallsAndMessaging" =>
      some "block_list_for_inbound_calls_and_messaging"
  | "CallHandlingForwardingToOtherUsers" =>
      some "call_handling_forwarding_to_other_users"
  | "CallLiveTranscription" => some "call_live_transcription"
  | "CallOverflow" => some "call_overflow"
  | "CallPark" => some "call_park"
  | "CallQueueOptOutReason" => some "call_queue_opt_out_reason"
  | "CallTransferring" => some "call_transferring"
  | "CheckVoicemailsOverPhone" => some "check_voicemails_over_phone"
  | "Delegation" => some "delegation"
  | "DisplayCallFeedbackSurvey" => some "display_call_feedback_survey"
  | "E2EEncryption" => some "e2e_encryption"
  | "ElevateToMeeting" => some "elevate_to_meeting"
  | "ExternalCallingOnZoomRoomCommonArea" =>
      some "external_calling_on_zoom_room_common_area"
  | "HandOffToRoom" => some "hand_off_to_room"
  | "InternationalCalling" => some "international_calling"
  | "LocalSurvivabilityMode" => some "local_survivability_mode"
  | "MobileSwitchToCarrier" => some "mobile_switch_to_carrier"
  | "OutboundCalling" => some "outbound_calling"
  | "OutboundSMS" => some "outbound_sms"
  | "OverrideDefaultPort" => some "override_default_port"
  | "PeerToPeerMedia" => some "peer_to_peer_media"
  | "PersonalAudioLibrary" => some "restricted_call_hours"
  | "RestrictedCallHours" => some "personal_audio_library"
  | _ => none

/-- Look up a key in a decoded JSON object, represented as an association
list from member keys to (abstract) member payloads. -/
def lookupKey {α : Type} (obj : List (String × α)) (k : String) : Option α :=
  (obj.find? (fun p => p.1 = k)).map (fun p => p.2)

/-- The `encoding/json` field-population rule (the decoder itself is the Go
standard library, an external collaborator; the rule is the documented one
the spec relies on): a struct field is populated from the JSON member whose
key equals the field's declared external name (its struct tag). -/
def decodeAccountSettingsField {α : Type} (obj : List (String × α))
    (goField : String) : Option α :=
  (accountSettingsJSONKey goField).bind (lookupKey obj)

/-! ## Concrete pagination witness data -/

/-- A concrete three-page simulated server: token "" serves page 0 with
next-token "t1", "t1" serves page 1 with next-token "t2", "t2" serves
page 2 with an empty next-token. -/
def threePageServer : String → Nat × String := fun tok =>
  if tok = "" then (0, "t1")
  else if tok = "t1" then (1, "t2")
  else (2, "")

/-- The request token under which `threePageServer` serves page `i`. -/
def threePageTok : Nat → String := fun i =>
  if i = 0 then "" else if i = 1 then "t1" else "t2"

end Zoom

/-- C1: a request with more than 30 identifiers makes each batch operation
return a non-nil error (the respective size-limit message) and perform zero
calls to `client.request`; the limit of 30 applies symmetrically to add and
delete. -/
theorem batch_limit_rejects_over_30 :
    (∀ (d : Zoom.Dispatcher Unit) (req : Zoom.AddCustomizedNumbersRequest),
        req.PhoneNumberIDs.length > 30 →
        (Zoom.AddCustomizedNumbers d req).err =
          some "Error: cannot add more than 30 phone numbers ids at once" ∧
        (Zoom.AddCustomizedNumbers d req).calls = []) ∧
    (∀ (d : Zoom.Dispatcher Unit) (req : Zoom.DeleteCustomizedNumbersRequest),
        req.CustomizedIDs.length > 30 →
        (Zoom.DeleteCustomizedNumbers d req).err =
          some "Error: cannot delete more than 30 customized ids at once" ∧
        (Zoom.DeleteCustomizedNumbers d req).calls = []) := by
  constructor
  · intro d req h
    simp [Zoom.AddCustomizedNumbers, h]
  · intro d req h
    simp [Zoom.DeleteCustomizedNumbers, h]

/-- Witness for C1 at a concrete 31-element collection. -/
theorem batch_limit_rejects_over_30_witness :
    (Zoom.AddCustomizedNumbers (fun _ => ⟨(), none, none⟩)
        ⟨List.replicate 31 "id"⟩).calls = [] ∧
    (Zoom.DeleteCustomizedNumbers (fun _ => ⟨(), none, none⟩)
        ⟨List.replicate 31 "id"⟩).calls = [] :=
  ⟨(batch_limit_rejects_over_30.1 (fun _ => ⟨(), none, none⟩)
      ⟨List.replicate 31 "id"⟩ (by simp)).2,
   (batch_limit_rejects_over_30.2 (fun _ => ⟨(), none, none⟩)
      ⟨List.replicate 31 "id"⟩ (by simp)).2⟩

/-- C2: if some comma-separated entry of the filter, after trimming and
under case-sensitive comparison, is outside `availableSettingTypes`, then
`GetAccountSettings` returns an error naming the first (leftmost) such
trimmed entry and performs zero dispatcher calls; if every trimmed entry is
in the set, it performs exactly one dispatcher call. -/
theorem getAccountSettings_filter_validation :
    (∀ (d : Zoom.Dispatcher Zoom.AccountSettingsResponse)
        (q : Zoom.AccountSettingsQuery) (s : String),
        Zoom.firstInvalidSetting q.SettingTypes = some s →
        (Zoom.GetAccountSettings d q).err =
          some ("Error: invalid setting type \x27" ++ s ++ "\x27") ∧
        (Zoom.GetAccountSettings d q).calls = []) ∧
    (∀ (d : Zoom.Dispatcher Zoom.AccountSettingsResponse)
        (q : Zoom.AccountSettingsQuery),
        Zoom.firstInvalidSetting q.SettingTypes = none →
        (Zoom.GetAccountSettings d q).calls = [Zoom.accountSettingsCall]) := by
  constructor
  · intro d q s h
    simp [Zoom.GetAccountSettings, h]
  · intro d q h
    simp only [Zoom.GetAccountSettings, h]
    cases hd : (d Zoom.accountSettingsCall).err <;> simp [hd]

/-- Witness for C2: the filter "bogus" is rejected without dispatch, the
filter " voicemail ,sms" passes and dispatches exactly once. -/
theorem getAccountSettings_filter_validation_witness :
    (Zoom.GetAccountSettings (fun _ => ⟨default, none, none⟩) ⟨"bogus"⟩).err =
      some ("Error: invalid setting type \x27" ++ "bogus" ++ "\x27") ∧
    (Zoom.GetAccountSettings (fun _ => ⟨default, none, none⟩)
        ⟨" voicemail ,sms"⟩).calls = [Zoom.accountSettingsCall] :=
  ⟨(getAccountSettings_filter_validation.1 (fun _ => ⟨default, none, none⟩)
      ⟨"bogus"⟩ "bogus" (by decide)).1,
   getAccountSettings_filter_validation.2 (fun _ => ⟨default, none, none⟩)
      ⟨" voicemail ,sms"⟩ (by decide)⟩

/-- C9: for the empty filter string, `GetAccountSettings` always returns a
non-nil error (splitting "" on commas yields the single entry "", which is
not a recognized setting name) and performs zero dispatcher calls. -/
theorem getAccountSettings_empty_filter_rejected :
    ∀ (d : Zoom.Dispatcher Zoom.AccountSettingsResponse),
      (Zoom.GetAccountSettings d ⟨""⟩).err =
        some "Error: invalid setting type \x27\x27" ∧
      (Zoom.GetAccountSettings d ⟨""⟩).calls = [] := by
  intro d
  have h : Zoom.firstInvalidSetting "" = some "" := by decide
  refine ⟨?_, ?_⟩ <;> simp [Zoom.GetAccountSettings, h]

/-- C7: validation of the settings filter is side-effect free and reads only
the request and the static set: the dispatcher trace of `GetAccountSettings`
does not depend on the dispatcher at all, and equals `[]` exactly when the
verdict of `firstInvalidSetting` (a pure function of the filter string and
the immutable `availableSettingTypes` list) is a rejection. -/
theorem settings_validation_pure_and_static :
    ∀ (d d' : Zoom.Dispatcher Zoom.AccountSettingsResponse)
      (q : Zoom.AccountSettingsQuery),
      (Zoom.GetAccountSettings d q).calls = (Zoom.GetAccountSettings d' q).calls ∧
      (Zoom.GetAccountSettings d q).calls =
        (if (Zoom.firstInvalidSetting q.SettingTypes).isSome then []
         else [Zoom.accountSettingsCall]) := by
  intro d d' q
  cases hf : Zoom.firstInvalidSetting q.SettingTypes with
  | some s =>
    simp [Zoom.GetAccountSettings, hf]
  | none =>
    cases hd : (d Zoom.accountSettingsCall).err <;>
      cases hd' : (d' Zoom.accountSettingsCall).err <;>
        simp [Zoom.GetAccountSettings, hf, hd, hd']

/-- C6: every identifier collection of length at most 30 — the empty one
included — passes the size check of the batch operations and proceeds to
exactly the one dispatcher call. -/
theorem batch_limit_allows_up_to_30 :
    (∀ (d : Zoom.Dispatcher Unit) (req : Zoom.AddCustomizedNumbersRequest),
        req.PhoneNumberIDs.length ≤ 30 →
        (Zoom.AddCustomizedNumbers d req).calls = [Zoom.addCustomizedNumbersCall]) ∧
    (∀ (d : Zoom.Dispatcher Unit) (req : Zoom.DeleteCustomizedNumbersRequest),
        req.CustomizedIDs.length ≤ 30 →
        (Zoom.DeleteCustomizedNumbers d req).calls =
          [Zoom.deleteCustomizedNumbersCall]) := by
  constructor
  · intro d req h
    have h' : ¬ req.PhoneNumberIDs.length > 30 := by omega
    cases hd : (d Zoom.addCustomizedNumbersCall).err <;>
      simp [Zoom.AddCustomizedNumbers, h', hd]
  · intro d req h
    have h' : ¬ req.CustomizedIDs.length > 30 := by omega
    cases hd : (d Zoom.deleteCustomizedNumbersCall).err <;>
      simp [Zoom.DeleteCustomizedNumbers, h', hd]

/-- Witness for C6 at the empty identifier collections. -/
theorem batch_limit_allows_up_to_30_witness :
    (Zoom.AddCustomizedNumbers (fun _ => ⟨(), none, none⟩) ⟨[]⟩).calls =
      [Zoom.addCustomizedNumbersCall] ∧
    (Zoom.DeleteCustomizedNumbers (fun _ => ⟨(), none, none⟩) ⟨[]⟩).calls =
      [Zoom.deleteCustomizedNumbersCall] :=
  ⟨batch_limit_allows_up_to_30.1 (fun _ => ⟨(), none, none⟩) ⟨[]⟩ (by simp),
   batch_limit_allows_up_to_30.2 (fun _ => ⟨(), none, none⟩) ⟨[]⟩ (by simp)⟩

/-- C5: every modelled endpoint method performs at most one dispatcher call
per invocation — exactly one when its validation (if any) passes, zero when
validation rejects — and never re-issues the call after a dispatch failure
(the count is the same whatever the dispatcher returns). -/
theorem at_most_one_dispatch_per_invocation :
    ∀ (dA : Zoom.Dispatcher Unit) (reqA : Zoom.AddCustomizedNumbersRequest)
      (dD : Zoom.Dispatcher Unit) (reqD : Zoom.DeleteCustomizedNumbersRequest)
      (dG : Zoom.Dispatcher Zoom.GetCustomizedNumbersResponse)
      (reqG : Zoom.GetCustomizedNumbersRequest)
      (dS : Zoom.Dispatcher Zoom.AccountSettingsResponse)
      (qS : Zoom.AccountSettingsQuery)
      (dC : Zoom.Dispatcher Zoom.CreateAlertResponse)
      (reqC : Zoom.CreateAlertRequest),
      (Zoom.AddCustomizedNumbers dA reqA).calls.length =
        (if reqA.PhoneNumberIDs.length > 30 then 0 else 1) ∧
      (Zoom.DeleteCustomizedNumbers dD reqD).calls.length =
        (if reqD.CustomizedIDs.length > 30 then 0 else 1) ∧
      (Zoom.GetCustomizedNumbers dG reqG).calls.length = 1 ∧
      (Zoom.GetAccountSettings dS qS).calls.length =
        (if (Zoom.firstInvalidSetting qS.SettingTypes).isSome then 0 else 1) ∧
      (Zoom.CreateAlert dC reqC).calls.length = 1 := by
  intro dA reqA dD reqD dG reqG dS qS dC reqC
  refine ⟨?_, ?_, ?_, ?_, ?_⟩
  · by_cases h : reqA.PhoneNumberIDs.length > 30
    · simp [Zoom.AddCustomizedNumbers, h]
    · cases hd : (dA Zoom.addCustomizedNumbersCall).err <;>
        simp [Zoom.AddCustomizedNumbers, h, hd]
  · by_cases h : reqD.CustomizedIDs.length > 30
    · simp [Zoom.DeleteCustomizedNumbers, h]
    · cases hd : (dD Zoom.deleteCustomizedNumbersCall).err <;>
        simp [Zoom.DeleteCustomizedNumbers, h, hd]
  · cases hd : (dG Zoom.getCustomizedNumbersCall).err <;>
      simp [Zoom.GetCustomizedNumbers, hd]
  · cases hf : Zoom.firstInvalidSetting qS.SettingTypes
    · cases hd : (dS Zoom.accountSettingsCall).err <;>
        simp [Zoom.GetAccountSettings, hf, hd]
    · simp [Zoom.GetAccountSettings, hf]
  · cases hd : (dC Zoom.createAlertCall).err <;>
      simp [Zoom.CreateAlert, hd]

/-- C4: for the methods with a typed output (`GetCustomizedNumbers`,
`GetAccountSettings`, `CreateAlert`), the output pointer is non-nil exactly
when the returned error is nil — no partially-populated output ever
accompanies an error. -/
theorem output_nil_iff_error :
    ∀ (dG : Zoom.Dispatcher Zoom.GetCustomizedNumbersResponse)
      (reqG : Zoom.GetCustomizedNumbersRequest)
      (dS : Zoom.Dispatcher Zoom.AccountSettingsResponse)
      (qS : Zoom.AccountSettingsQuery)
      (dC : Zoom.Dispatcher Zoom.CreateAlertResponse)
      (reqC : Zoom.CreateAlertRequest),
      ((Zoom.GetCustomizedNumbers dG reqG).out.isSome =
        (Zoom.GetCustomizedNumbers dG reqG).err.isNone) ∧
      ((Zoom.GetAccountSettings dS qS).out.isSome =
        (Zoom.GetAccountSettings dS qS).err.isNone) ∧
      ((Zoom.CreateAlert dC reqC).out.isSome =
        (Zoom.CreateAlert dC reqC).err.isNone) := by
  intro dG reqG dS qS dC reqC
  refine ⟨?_, ?_, ?_⟩
  · cases hd : (dG Zoom.getCustomizedNumbersCall).err <;>
      simp [Zoom.GetCustomizedNumbers, hd]
  · cases hf : Zoom.firstInvalidSetting qS.SettingTypes
    · cases hd : (dS Zoom.accountSettingsCall).err <;>
        simp [Zoom.GetAccountSettings, hf, hd]
    · simp [Zoom.GetAccountSettings, hf]
  · cases hd : (dC Zoom.createAlertCall).err <;>
      simp [Zoom.CreateAlert, hd]

/-- Counterexample to C3 as stated: for the same underlying cause "boom",
the two distinct operations `AddCustomizedNumbers` and
`GetCustomizedNumbers` return the identical error value
"Error making request: boom", and that message does not contain the
operation name — so the returned error does not identify the operation. -/
theorem errors_lack_operation_name :
    (Zoom.AddCustomizedNumbers (fun _ => ⟨(), none, some "boom"⟩) ⟨[]⟩).err =
      some "Error making request: boom" ∧
    (Zoom.GetCustomizedNumbers (fun _ => ⟨default, none, some "boom"⟩)
        ⟨none⟩).err = some "Error making request: boom" ∧
    ¬ ("AddCustomizedNumbers".data <:+: "Error making request: boom".data) ∧
    ¬ ("GetCustomizedNumbers".data <:+: "Error making request: boom".data) := by
  refine ⟨by decide, by decide, by decide, by decide⟩

/-- C3 amended: every error returned by an endpoint method is wrapped —
dispatch failures always carry the fixed prefix "Error making request: "
followed by the underlying cause, and the wrapped message is never equal to
the raw cause — but the wrapping is uniform across operations and does not
include the operation name. -/
theorem dispatch_errors_wrapped_uniformly :
    (∀ (d : Zoom.Dispatcher Unit) (req : Zoom.AddCustomizedNumbersRequest),
        req.PhoneNumberIDs.length ≤ 30 →
        (Zoom.AddCustomizedNumbers d req).err =
          (d Zoom.addCustomizedNumbersCall).err.map
            (fun e => "Error making request: " ++ e)) ∧
    (∀ (d : Zoom.Dispatcher Zoom.GetCustomizedNumbersResponse)
        (req : Zoom.GetCustomizedNumbersRequest),
        (Zoom.GetCustomizedNumbers d req).err =
          (d Zoom.getCustomizedNumbersCall).err.map
            (fun e => "Error making request: " ++ e)) ∧
    (∀ e : String, "Error making request: " ++ e ≠ e) := by
  refine ⟨?_, ?_, ?_⟩
  · intro d req h
    have h' : ¬ req.PhoneNumberIDs.length > 30 := by omega
    cases hd : (d Zoom.addCustomizedNumbersCall).err <;>
      simp [Zoom.AddCustomizedNumbers, h', hd]
  · intro d req
    cases hd : (d Zoom.getCustomizedNumbersCall).err <;>
      simp [Zoom.GetCustomizedNumbers, hd]
  · intro e h
    have hlen := congrArg String.length h
    have hpre : ("Error making request: " : String).length = 22 := rfl
    rw [String.length_append, hpre] at hlen
    omega

/-- Witness for the amended C3: a concrete failing dispatch through
`AddCustomizedNumbers` produces exactly the wrapped cause. -/
theorem dispatch_errors_wrapped_uniformly_witness :
    (Zoom.AddCustomizedNumbers (fun _ => ⟨(), none, some "boom"⟩) ⟨[]⟩).err =
      ((fun (_ : Zoom.EndpointCall) =>
          (⟨(), none, some "boom"⟩ : Zoom.DispatchOutcome Unit))
        Zoom.addCustomizedNumbersCall).err.map
          (fun e => "Error making request: " ++ e) :=
  dispatch_errors_wrapped_uniformly.1
    (fun _ => ⟨(), none, some "boom"⟩) ⟨[]⟩ (by simp)

/-- Auxiliary induction for the pagination cursor: starting from the request
token of page `i`, with `k + 1` pages left and fuel at least `k + 1`, the
cursor visits exactly pages `i, i+1, ..., i+k`. -/
theorem cursorIterate_eq_range_aux (srv : String → Nat × String)
    (reqTok : Nat → String) (N : Nat)
    (h1 : ∀ i, i < N →
      srv (reqTok i) = (i, if i + 1 = N then "" else reqTok (i + 1)))
    (h2 : ∀ i, i < N → 0 < i → reqTok i ≠ "") :
    ∀ k f i, i + (k + 1) = N → k + 1 ≤ f →
      Zoom.cursorIterate srv f (reqTok i) = List.range' i (k + 1) := by
  intro k
  induction k with
  | zero =>
    intro f i hik hkf
    obtain ⟨f', rfl⟩ : ∃ f', f = f' + 1 := ⟨f - 1, by omega⟩
    have hi : i < N := by omega
    have hlast : i + 1 = N := by omega
    simp only [Zoom.cursorIterate, h1 i hi, hlast]
    simp [List.range']
  | succ k ih =>
    intro f i hik hkf
    obtain ⟨f', rfl⟩ : ∃ f', f = f' + 1 := ⟨f - 1, by omega⟩
    have hi : i < N := by omega
    have hne : ¬ i + 1 = N := by omega
    have htok : reqTok (i + 1) ≠ "" := h2 (i + 1) (by omega) (by omega)
    simp only [Zoom.cursorIterate, h1 i hi, if_neg hne]
    rw [if_neg htok, ih f' (i + 1) (by omega) (by omega)]
    simp [List.range']

/-- C8: for every simulated server with `N` pages — page `i` served under
request token `reqTok i`, carrying a non-empty next-page-token (the request
token of page `i + 1`) except the last page, whose next-page-token is
empty — iterating the cursor from the empty starting token with any fuel at
least `N` visits exactly the `N` pages `0, ..., N-1`, in order, with no
page repeated, and stops at the page with the empty next-page-token. -/
theorem pagination_cursor_visits_each_page_once
    (srv : String → Nat × String) (reqTok : Nat → String) (N f : Nat)
    (hN : 0 < N) (hf : N ≤ f) (h0 : reqTok 0 = "")
    (h1 : ∀ i, i < N →
      srv (reqTok i) = (i, if i + 1 = N then "" else reqTok (i + 1)))
    (h2 : ∀ i, i < N → 0 < i → reqTok i ≠ "") :
    Zoom.cursorIterate srv f "" = List.range N ∧
    (Zoom.cursorIterate srv f "").Nodup := by
  obtain ⟨M, rfl⟩ : ∃ M, N = M + 1 := ⟨N - 1, by omega⟩
  have h := cursorIterate_eq_range_aux srv reqTok (M + 1) h1 h2 M f 0
    (by omega) (by omega)
  rw [h0] at h
  have hr : List.range' 0 (M + 1) = List.range (M + 1) :=
    (List.range_eq_range' (M + 1)).symm
  rw [h, hr]
  exact ⟨rfl, List.nodup_range (M + 1)⟩

/-- Witness for C8: the concrete three-page server is walked from the empty
token, visiting pages 0, 1, 2 exactly once even with surplus fuel. -/
theorem pagination_cursor_witness :
    Zoom.cursorIterate Zoom.threePageServer 5 "" = List.range 3 ∧
    (Zoom.cursorIterate Zoom.threePageServer 5 "").Nodup :=
  pagination_cursor_visits_each_page_once Zoom.threePageServer
    Zoom.threePageTok 3 5 (by decide) (by decide) (by decide)
    (by decide) (by decide)

/-- C10: the external JSON keys of the `PersonalAudioLibrary` and
`RestrictedCallHours` fields of `AccountSettingsResponse` are swapped: a
decoded response populates `PersonalAudioLibrary` from the JSON member
"restricted_call_hours" and `RestrictedCallHours` from the member
"personal_audio_library", for every response object. -/
theorem accountSettings_swapped_json_keys :
    Zoom.accountSettingsJSONKey "PersonalAudioLibrary" =
      some "restricted_call_hours" ∧
    Zoom.accountSettingsJSONKey "RestrictedCallHours" =
      some "personal_audio_library" ∧
    ∀ (α : Type) (obj : List (String × α)),
      Zoom.decodeAccountSettingsField obj "PersonalAudioLibrary" =
        Zoom.lookupKey obj "restricted_call_hours" ∧
      Zoom.decodeAccountSettingsField obj "RestrictedCallHours" =
        Zoom.lookupKey obj "personal_audio_library" := by
  refine ⟨by decide, by decide, ?_⟩
  intro α obj
  exact ⟨rfl, rfl⟩
